import Mathlib

/-!
Verification of the Discord linked-roles connection server (src/main.py).

The development shallowly embeds the role-to-metadata resolution and
publication flow.  External collaborators (the Discord HTTP API and the bot
connection) are modelled as oracles supplied through environment structures;
every function that the Python code defines is translated directly from the
source.  Python dictionaries with string keys are modelled as association
lists with the standard dict-assignment semantics (replace in place when the
key is present, append otherwise); a value read of an unbound local variable
is modelled as a raised NameError, and a missing JSON key access as a raised
KeyError, following Python semantics.
-/

set_option autoImplicit false

namespace LinkedRoles

/-- Result of running a piece of Python code: either a normal value, or an
uncaught exception identified by its class name. -/
inductive PyResult (α : Type) where
  | ok (a : α)
  | exn (exnName : String)
  deriving Repr, DecidableEq

/-- Python dict lookup `d[k]` over a string-keyed association list,
returning `none` when the key is absent (the caller decides whether that
raises KeyError). -/
def dictGet : List (String × Nat) → String → Option Nat
  | [], _ => none
  | p :: d, k => if p.1 = k then some p.2 else dictGet d k

/-- Python dict assignment `d[k] = v`: replaces the binding in place when
the key is present, appends it otherwise. -/
def dictSet : List (String × Nat) → String → Nat → List (String × Nat)
  | [], k, v => [(k, v)]
  | p :: d, k, v => if p.1 = k then (k, v) :: d else p :: dictSet d k v

/-- Lookup in a string-valued JSON object (for the OAuth token and identity
response bodies). -/
def dictGetS : List (String × String) → String → Option String
  | [], _ => none
  | p :: d, k => if p.1 = k then some p.2 else dictGetS d k

/-- `ROLE_MAPPINGS` from src/main.py lines 31-37: metadata field name to
Discord role id, in source order. -/
def ROLE_MAPPINGS : List (String × Nat) :=
  [("founder", 1400496639680057407),
   ("manager", 1400496639680057406),
   ("developer", 1400496639675990026),
   ("mod", 1400496639675990033),
   ("event_host", 1400496639675990028)]

/-- The metadata-building loop of `update_metadata` (src/main.py lines
133-138): for each `(key, role_id)` in the mapping, assign
`metadata[key] = 1` when the role id is held and `0` otherwise, starting
from the empty dict. -/
def buildMetadata (mappings : List (String × Nat)) (userRoleIds : List Nat) :
    List (String × Nat) :=
  mappings.foldl
    (fun metadata kv => dictSet metadata kv.1 (if kv.2 ∈ userRoleIds then 1 else 0)) []

/-- The override rule of `update_metadata` (src/main.py lines 142-143): if
`metadata.get("manager") == 1` then `metadata["mod"] = 0`. -/
def applyOverride (metadata : List (String × Nat)) : List (String × Nat) :=
  if dictGet metadata "manager" = some 1 then dictSet metadata "mod" 0 else metadata

/-- The full metadata resolution performed inline by `update_metadata`
(src/main.py lines 133-143): build the record from the role set, then apply
the manager/mod override. -/
def resolveMetadata (mappings : List (String × Nat)) (userRoleIds : List Nat) :
    List (String × Nat) :=
  applyOverride (buildMetadata mappings userRoleIds)

/-- A Discord guild member as seen by the bot: we retain only the list of
role ids (`[role.id for role in member.roles]`, src/main.py line 112). -/
structure Member where
  roles : List Nat
  deriving Repr, DecidableEq

/-- Possible outcomes of `guild.fetch_member(user_id)` (src/main.py line
106): a returned member object (possibly falsy `None`), or one of the
exceptions handled by `get_user_roles`. -/
inductive FetchOutcome where
  | returns (m : Option Member)
  | raisesNotFound
  | raisesForbidden
  | raisesOther (msg : String)
  deriving Repr, DecidableEq

/-- The bot-side environment for `get_user_roles`: whether
`client.get_guild(SERVER_ID)` yields a (truthy) guild, the server id used in
log messages, and the behaviour of `fetch_member` per user id. -/
structure BotEnv where
  serverId : Nat
  guildFound : Bool
  fetchMember : String → FetchOutcome

/-- `get_user_roles` (src/main.py lines 98-121), returning the role-id list
together with the lines printed.  Every branch of the source returns
normally (the try/except catches every exception class raised inside),
which the total return type `List Nat × List String` makes structural. -/
def get_user_roles (env : BotEnv) (user_id : String) : List Nat × List String :=
  if env.guildFound = false then
    ([], ["Error: Bot is not in server with ID " ++ Nat.repr env.serverId])
  else
    match env.fetchMember user_id with
    | .returns none =>
        ([], ["Error: Could not find member with ID " ++ user_id ++ " in the server."])
    | .returns (some m) => (m.roles, [])
    | .raisesNotFound =>
        ([], ["Error: Member with ID " ++ user_id ++ " not found in guild " ++
              Nat.repr env.serverId ++ "."])
    | .raisesForbidden =>
        ([], ["Error: Bot does not have permissions to fetch member " ++ user_id ++ "."])
    | .raisesOther msg =>
        ([], ["An unexpected error occurred in get_user_roles: " ++ msg])

/-- An HTTP response object as produced by the `requests` library: whether
`raise_for_status()` passes, and the body text. -/
structure Response where
  ok : Bool
  text : String
  deriving Repr, DecidableEq

/-- Behaviour of the publish call `requests.put(...)` (src/main.py line
156): either a response object is returned (and bound to the local variable
`response`), or a transport-level exception is raised first, leaving
`response` unbound. -/
inductive PutBehavior where
  | returns (r : Response)
  | raises
  deriving Repr, DecidableEq

/-- The except-branch of the publish step (src/main.py lines 159-161).  It
prints the error and then reads `response.text`; when the local variable
`response` is unbound (the PUT itself raised), that read raises a NameError
per Python name-resolution semantics. -/
def handlePublishError (response : Option Response) : PyResult (List String) :=
  match response with
  | some r =>
      .ok ["Error updating metadata", "Response Body: " ++ r.text]
  | none => .exn "NameError"

/-- The try/except around the publish PUT (src/main.py lines 155-161),
returning the printed lines or the escaping exception. -/
def publishStep (put : PutBehavior) (user_id : String) : PyResult (List String) :=
  match put with
  | .returns r =>
      if r.ok then .ok ["Successfully updated metadata for user " ++ user_id]
      else handlePublishError (some r)
  | .raises => handlePublishError none

/-- Outcome of a `requests` call whose JSON body the handler then indexes:
a success status with the parsed JSON object, or a
`requests.exceptions.RequestException` (from the call itself or from
`raise_for_status()`). -/
inductive JsonApiResult where
  | success (json : List (String × String))
  | failure
  deriving Repr, DecidableEq

/-- The outbound calls the handler can make, in order of occurrence. -/
inductive Call where
  | tokenExchange
  | identityLookup
  | roleLookup
  | publish
  deriving Repr, DecidableEq

/-- The external world for one callback request: the token-exchange and
identity-lookup outcomes, the bot environment, and the publish-PUT
behaviour. -/
structure CallbackEnv where
  token : JsonApiResult
  identity : JsonApiResult
  bot : BotEnv
  put : PutBehavior

/-- Trace of one `update_metadata` run: the metadata record passed to the
publish PUT (when that call was reached), the normal/exceptional outcome,
and the outbound calls made. -/
structure UpdateRun where
  published : Option (List (String × Nat))
  result : PyResult Unit
  calls : List Call

/-- `update_metadata` (src/main.py lines 124-161): look up the user roles
through the bot, build the metadata record with the override rule, and PUT
it to the role-connection endpoint.  A non-success response is logged and
swallowed; a transport-level PUT failure surfaces as the except-branch
NameError. -/
def update_metadata (env : CallbackEnv) (user_id : String) : UpdateRun :=
  let user_role_ids := (get_user_roles env.bot user_id).1
  let metadata := resolveMetadata ROLE_MAPPINGS user_role_ids
  match publishStep env.put user_id with
  | .ok _ => ⟨some metadata, .ok (), [.roleLookup, .publish]⟩
  | .exn e => ⟨some metadata, .exn e, [.roleLookup, .publish]⟩

/-- A Flask response: status code, body text, and redirect target when the
response is a redirect. -/
structure HttpResponse where
  status : Nat
  body : String
  redirectTo : Option String
  deriving Repr, DecidableEq

/-- Trace of one `linked_roles` handler run: the response or escaping
exception, and the outbound calls made. -/
structure HandlerRun where
  result : PyResult HttpResponse
  calls : List Call

/-- The redirect returned on success (src/main.py line 95). -/
def successRedirect : HttpResponse :=
  ⟨302, "", some "https://discord.com/channels/@me"⟩

/-- The `/linked-roles` handler (src/main.py lines 53-95).  `code` is the
`code` query parameter (`none` when absent); `if not code` treats an empty
string as missing.  Indexing a JSON body that lacks the accessed key raises
a KeyError, which `except requests.exceptions.RequestException` does not
catch.  The return value of `update_metadata` is ignored: the handler only
fails to reach the redirect when `update_metadata` raises. -/
def linked_roles (env : CallbackEnv) (code : Option String) : HandlerRun :=
  if code = none ∨ code = some "" then
    ⟨.ok ⟨400, "Error: No authorization code provided.", none⟩, []⟩
  else
    match env.token with
    | .failure =>
        ⟨.ok ⟨500, "Error communicating with Discord API.", none⟩, [.tokenExchange]⟩
    | .success tokenJson =>
      match dictGetS tokenJson "access_token" with
      | none => ⟨.exn "KeyError", [.tokenExchange]⟩
      | some _access_token =>
        match env.identity with
        | .failure =>
            ⟨.ok ⟨500, "Error getting user info from Discord.", none⟩,
             [.tokenExchange, .identityLookup]⟩
        | .success userJson =>
          match dictGetS userJson "id" with
          | none => ⟨.exn "KeyError", [.tokenExchange, .identityLookup]⟩
          | some user_id =>
            let upd := update_metadata env user_id
            match upd.result with
            | .exn e => ⟨.exn e, [.tokenExchange, .identityLookup] ++ upd.calls⟩
            | .ok _ =>
                ⟨.ok successRedirect, [.tokenExchange, .identityLookup] ++ upd.calls⟩

/-! ### Concrete environments used to instantiate the theorems -/

/-- A member object holding no roles. -/
def emptyMember : Member := ⟨[]⟩

/-- The degraded lookup conditions named by the specification: the server
cannot be found, the member cannot be found (a falsy member object or a
NotFound exception), or the lookup actor lacks permission. -/
def degradedLookup (env : BotEnv) (user_id : String) : Prop :=
  env.guildFound = false ∨ env.fetchMember user_id = .returns none ∨
    env.fetchMember user_id = .raisesNotFound ∨
    env.fetchMember user_id = .raisesForbidden

/-- Environment where both OAuth calls succeed and the publish PUT returns
a non-success response. -/
def envC2 : CallbackEnv :=
  ⟨.success [("access_token", "tok")], .success [("id", "42")],
   ⟨1234, true, fun _ => .returns (some emptyMember)⟩,
   .returns ⟨false, "bad request"⟩⟩

/-- Bot environment whose member fetch reports the member as missing. -/
def botC5 : BotEnv := ⟨1234, true, fun _ => .returns none⟩

/-- Environment whose member fetch raises NotFound; everything else
succeeds. -/
def envC6 : CallbackEnv :=
  ⟨.success [("access_token", "tok")], .success [("id", "42")],
   ⟨1234, true, fun _ => .raisesNotFound⟩, .returns ⟨true, ""⟩⟩

/-- Environment where both OAuth calls succeed and the publish PUT raises a
transport-level exception. -/
def envC7 : CallbackEnv :=
  ⟨.success [("access_token", "tok")], .success [("id", "42")],
   ⟨1234, true, fun _ => .returns (some emptyMember)⟩, .raises⟩

/-- Environment where every outbound call succeeds. -/
def envC7ok : CallbackEnv :=
  ⟨.success [("access_token", "tok")], .success [("id", "42")],
   ⟨1234, true, fun _ => .returns (some emptyMember)⟩, .returns ⟨true, "ok"⟩⟩

/-- Environment whose publish PUT raises; the OAuth outcomes are not
reached by `update_metadata`. -/
def envC9 : CallbackEnv :=
  ⟨.success [("access_token", "tok")], .success [("id", "42")],
   ⟨1234, true, fun _ => .returns (some emptyMember)⟩, .raises⟩

/-- Environment whose token exchange returns a success status with a JSON
body lacking the access_token key. -/
def envC10 : CallbackEnv :=
  ⟨.success [("token_type", "Bearer")], .success [("id", "42")],
   ⟨1234, true, fun _ => .returns (some emptyMember)⟩, .returns ⟨true, ""⟩⟩

/-! ### Association-list lemmas -/

theorem dictGet_dictSet_same (d : List (String × Nat)) (k : String) (v : Nat) :
    dictGet (dictSet d k v) k = some v := by
  induction d with
  | nil => simp [dictSet, dictGet]
  | cons p d ih =>
    by_cases h : p.1 = k
    · simp [dictSet, dictGet, h]
    · simp [dictSet, dictGet, h, ih]

theorem dictGet_dictSet_ne (d : List (String × Nat)) (k k' : String) (v : Nat)
    (h : k' ≠ k) : dictGet (dictSet d k v) k' = dictGet d k' := by
  have hks : ¬ k = k' := fun hk => h hk.symm
  induction d with
  | nil => simp [dictSet, dictGet, hks]
  | cons p d ih =>
    by_cases hp : p.1 = k
    · simp [dictSet, dictGet, hp, hks]
    · by_cases hp' : p.1 = k'
      · simp [dictSet, dictGet, hp, hp', h]
      · simp [dictSet, dictGet, hp, hp', ih]

theorem dictSet_keys_of_mem (d : List (String × Nat)) (k : String) (v : Nat)
    (h : k ∈ d.map Prod.fst) : (dictSet d k v).map Prod.fst = d.map Prod.fst := by
  induction d with
  | nil => simp at h
  | cons p d ih =>
    by_cases hp : p.1 = k
    · simp [dictSet, hp]
    · have hd : k ∈ d.map Prod.fst := by
        simp only [List.map_cons, List.mem_cons] at h
        rcases h with h | h
        · exact absurd h.symm hp
        · exact h
      simp [dictSet, hp, ih hd]

theorem mem_dictSet (d : List (String × Nat)) (k : String) (v : Nat)
    (p : String × Nat) (h : p ∈ dictSet d k v) : p = (k, v) ∨ p ∈ d := by
  induction d with
  | nil => simpa [dictSet] using h
  | cons q d ih =>
    by_cases hq : q.1 = k
    · simp only [dictSet] at h
      rw [if_pos hq] at h
      rcases List.mem_cons.mp h with h | h
      · exact Or.inl h
      · exact Or.inr (List.mem_cons_of_mem _ h)
    · simp only [dictSet] at h
      rw [if_neg hq] at h
      rcases List.mem_cons.mp h with h | h
      · exact Or.inr (List.mem_cons.mpr (Or.inl h))
      · rcases ih h with h | h
        · exact Or.inl h
        · exact Or.inr (List.mem_cons_of_mem _ h)

theorem dictGet_buildFold_not_mem (val : String × Nat → Nat)
    (l : List (String × Nat)) (acc : List (String × Nat)) (f : String)
    (hf : f ∉ l.map Prod.fst) :
    dictGet (l.foldl (fun m kv => dictSet m kv.1 (val kv)) acc) f = dictGet acc f := by
  induction l generalizing acc with
  | nil => rfl
  | cons kv l ih =>
    simp only [List.map_cons, List.mem_cons, not_or] at hf
    rw [List.foldl_cons, ih _ hf.2, dictGet_dictSet_ne _ _ _ _ hf.1]

theorem dictGet_buildFold_mem (val : String × Nat → Nat)
    (l : List (String × Nat)) (f : String) (rid : Nat) :
    ∀ acc : List (String × Nat), (l.map Prod.fst).Nodup → (f, rid) ∈ l →
      dictGet (l.foldl (fun m kv => dictSet m kv.1 (val kv)) acc) f =
        some (val (f, rid)) := by
  induction l with
  | nil => intro acc _ hmem; simp at hmem
  | cons kv l ih =>
    intro acc hnd hmem
    simp only [List.map_cons, List.nodup_cons] at hnd
    rcases List.mem_cons.mp hmem with h | h
    · subst h
      rw [List.foldl_cons, dictGet_buildFold_not_mem val l _ f hnd.1]
      exact dictGet_dictSet_same acc f (val (f, rid))
    · rw [List.foldl_cons]
      exact ih _ hnd.2 h

/-- Evaluation of the metadata-building loop at the concrete
`ROLE_MAPPINGS` configuration. -/
theorem buildMetadata_ROLE_MAPPINGS (userRoleIds : List Nat) :
    buildMetadata ROLE_MAPPINGS userRoleIds =
      [("founder", if 1400496639680057407 ∈ userRoleIds then 1 else 0),
       ("manager", if 1400496639680057406 ∈ userRoleIds then 1 else 0),
       ("developer", if 1400496639675990026 ∈ userRoleIds then 1 else 0),
       ("mod", if 1400496639675990033 ∈ userRoleIds then 1 else 0),
       ("event_host", if 1400496639675990028 ∈ userRoleIds then 1 else 0)] := rfl

/-! ### Claim theorems -/

/-- C1: for every user role set, if the resolved metadata record has field
`manager` equal to `1`, then the published record has `mod` equal to `0`,
whatever the role set contains. -/
theorem manager_override_forces_mod_zero (userRoleIds : List Nat)
    (h : dictGet (resolveMetadata ROLE_MAPPINGS userRoleIds) "manager" = some 1) :
    dictGet (resolveMetadata ROLE_MAPPINGS userRoleIds) "mod" = some 0 := by
  unfold resolveMetadata applyOverride at h ⊢
  by_cases hc : dictGet (buildMetadata ROLE_MAPPINGS userRoleIds) "manager" = some 1
  · simp [hc, dictGet_dictSet_same]
  · rw [if_neg hc] at h
    exact absurd h hc

/-- Witness for C1 at the role set holding both the manager-mapped and the
mod-mapped role ids. -/
theorem manager_override_forces_mod_zero_witness :
    dictGet (resolveMetadata ROLE_MAPPINGS
      [1400496639680057406, 1400496639675990033]) "manager" = some 1 ∧
    dictGet (resolveMetadata ROLE_MAPPINGS
      [1400496639680057406, 1400496639675990033]) "mod" = some 0 :=
  ⟨by decide, manager_override_forces_mod_zero _ (by decide)⟩

/-- C3: for every role mapping (with the dict invariant of unique keys),
every user role set, and every mapped field other than `mod`, the resolved
record assigns the field `1` exactly when its mapped role id is in the role
set and `0` otherwise; the manager/mod override is the only cross-field
rule and it touches no field but `mod`. -/
theorem resolver_field_iff_role (mappings : List (String × Nat))
    (userRoleIds : List Nat) (field : String) (rid : Nat)
    (hnd : (mappings.map Prod.fst).Nodup)
    (hmem : (field, rid) ∈ mappings) (hf : field ≠ "mod") :
    dictGet (resolveMetadata mappings userRoleIds) field =
      some (if rid ∈ userRoleIds then 1 else 0) := by
  have hbuild : dictGet (buildMetadata mappings userRoleIds) field =
      some (if rid ∈ userRoleIds then 1 else 0) :=
    dictGet_buildFold_mem (fun kv => if kv.2 ∈ userRoleIds then 1 else 0)
      mappings field rid [] hnd hmem
  unfold resolveMetadata applyOverride
  by_cases hc : dictGet (buildMetadata mappings userRoleIds) "manager" = some 1
  · rw [if_pos hc, dictGet_dictSet_ne _ _ _ _ hf]
    exact hbuild
  · rw [if_neg hc]
    exact hbuild

/-- Witness for C3 at the configured mapping, field `founder`, and the role
set holding exactly the founder-mapped role id. -/
theorem resolver_field_iff_role_witness :
    dictGet (resolveMetadata ROLE_MAPPINGS [1400496639680057407]) "founder" =
      some (if (1400496639680057407 : Nat) ∈ [(1400496639680057407 : Nat)]
            then 1 else 0) :=
  resolver_field_iff_role ROLE_MAPPINGS [1400496639680057407] "founder"
    1400496639680057407 (by decide) (by decide) (by decide)

/-- C8: for every input role list, the resolved record has exactly the five
configured field names as its keys, in configuration order, and every value
is `0` or `1`. -/
theorem resolver_record_shape (userRoleIds : List Nat) :
    (resolveMetadata ROLE_MAPPINGS userRoleIds).map Prod.fst =
      ["founder", "manager", "developer", "mod", "event_host"] ∧
    ∀ p ∈ resolveMetadata ROLE_MAPPINGS userRoleIds, p.2 = 0 ∨ p.2 = 1 := by
  have hkeys : (buildMetadata ROLE_MAPPINGS userRoleIds).map Prod.fst =
      ["founder", "manager", "developer", "mod", "event_host"] := by
    rw [buildMetadata_ROLE_MAPPINGS]
    rfl
  have hvals : ∀ p ∈ buildMetadata ROLE_MAPPINGS userRoleIds, p.2 = 0 ∨ p.2 = 1 := by
    rw [buildMetadata_ROLE_MAPPINGS]
    intro p hp
    simp only [List.mem_cons, List.not_mem_nil, or_false] at hp
    rcases hp with rfl | rfl | rfl | rfl | rfl <;> dsimp only <;> split <;> simp
  unfold resolveMetadata applyOverride
  by_cases hc : dictGet (buildMetadata ROLE_MAPPINGS userRoleIds) "manager" = some 1
  · rw [if_pos hc]
    constructor
    · rw [dictSet_keys_of_mem _ _ _ (by rw [hkeys]; decide)]
      exact hkeys
    · intro p hp
      rcases mem_dictSet _ _ _ _ hp with rfl | hp'
      · exact Or.inl rfl
      · exact hvals p hp'
  · rw [if_neg hc]
    exact ⟨hkeys, hvals⟩

/-! ### Lemmas about the publish step and update_metadata -/

theorem publishStep_returns_ok (r : Response) (uid : String) :
    ∃ logs, publishStep (.returns r) uid = .ok logs := by
  by_cases h : r.ok = true
  · refine ⟨["Successfully updated metadata for user " ++ uid], ?_⟩
    simp [publishStep, h]
  · refine ⟨["Error updating metadata", "Response Body: " ++ r.text], ?_⟩
    simp [publishStep, handlePublishError, h]

theorem update_metadata_published (env : CallbackEnv) (user_id : String) :
    (update_metadata env user_id).published =
      some (resolveMetadata ROLE_MAPPINGS (get_user_roles env.bot user_id).1) := by
  unfold update_metadata
  cases publishStep env.put user_id <;> rfl

theorem update_metadata_calls (env : CallbackEnv) (user_id : String) :
    (update_metadata env user_id).calls = [Call.roleLookup, Call.publish] := by
  unfold update_metadata
  cases publishStep env.put user_id <;> rfl

theorem update_metadata_result_of_returns (env : CallbackEnv) (uid : String)
    (r : Response) (h : env.put = .returns r) :
    (update_metadata env uid).result = .ok () := by
  obtain ⟨logs, hl⟩ := publishStep_returns_ok r uid
  unfold update_metadata
  rw [h, hl]

/-- C4: a callback request with the code query parameter absent is answered
with HTTP 400 and the handler makes no outbound calls at all. -/
theorem missing_code_400_no_calls (env : CallbackEnv) :
    linked_roles env none =
      ⟨.ok ⟨400, "Error: No authorization code provided.", none⟩, []⟩ := rfl

/-- C5: under any of the degraded lookup conditions, the role lookup
returns the empty role set and logs the condition; the lookup is a total
function into lists so no error propagates to its caller. -/
theorem lookup_fails_soft (env : BotEnv) (uid : String)
    (h : degradedLookup env uid) :
    (get_user_roles env uid).1 = [] ∧ (get_user_roles env uid).2 ≠ [] := by
  by_cases g : env.guildFound = false
  · simp [get_user_roles, g]
  · rcases h with h | h | h | h
    · exact absurd h g
    · simp [get_user_roles, g, h]
    · simp [get_user_roles, g, h]
    · simp [get_user_roles, g, h]

/-- Witness for C5 at a bot environment whose member fetch reports the
member as missing. -/
theorem lookup_fails_soft_witness :
    (get_user_roles botC5 "42").1 = [] ∧ (get_user_roles botC5 "42").2 ≠ [] :=
  lookup_fails_soft botC5 "42" (Or.inr (Or.inl rfl))

/-- C6: when the role lookup yields the empty role set, the flow does not
abort: the resolved record is all-zero and the publish call is still
invoked with that record. -/
theorem empty_roles_publishes_all_zero (env : CallbackEnv) (user_id : String)
    (h : (get_user_roles env.bot user_id).1 = []) :
    (update_metadata env user_id).published =
      some (resolveMetadata ROLE_MAPPINGS []) ∧
    (∀ p ∈ resolveMetadata ROLE_MAPPINGS [], p.2 = 0) ∧
    Call.publish ∈ (update_metadata env user_id).calls := by
  refine ⟨?_, ?_, ?_⟩
  · rw [update_metadata_published, h]
  · decide
  · rw [update_metadata_calls]
    decide

/-- Witness for C6 at an environment whose member fetch raises NotFound. -/
theorem empty_roles_publishes_all_zero_witness :
    (update_metadata envC6 "42").published =
      some (resolveMetadata ROLE_MAPPINGS []) ∧
    (∀ p ∈ resolveMetadata ROLE_MAPPINGS [], p.2 = 0) ∧
    Call.publish ∈ (update_metadata envC6 "42").calls :=
  empty_roles_publishes_all_zero envC6 "42" rfl

/-- C9: when the publish PUT raises a transport-level exception before a
response object is bound, the except branch reads the unbound local
`response` and the resulting NameError escapes `update_metadata`. -/
theorem transport_error_publish_nameerror (env : CallbackEnv) (uid : String)
    (h : env.put = .raises) :
    (update_metadata env uid).result = .exn "NameError" := by
  have hps : publishStep env.put uid = .exn "NameError" := by
    rw [h]
    rfl
  unfold update_metadata
  rw [hps]

/-- Witness for C9 at an environment whose publish PUT raises. -/
theorem transport_error_publish_nameerror_witness :
    (update_metadata envC9 "42").result = .exn "NameError" :=
  transport_error_publish_nameerror envC9 "42" rfl

/-- C2 counterexample: at an environment where the publish PUT returns a
non-success response, the handler still answers with the 302 success
redirect rather than a 500 error. -/
theorem publish_failure_not_surfaced_cex :
    envC2.put = PutBehavior.returns ⟨false, "bad request"⟩ ∧
    (linked_roles envC2 (some "abc")).result = .ok successRedirect ∧
    successRedirect.status = 302 := ⟨rfl, rfl, rfl⟩

/-- C2 (amended): a non-success publish response is logged inside
`update_metadata` with the response body and swallowed — the handler still
returns the success redirect; the failure is not surfaced to the callback
orchestrator and the user does not see a 500. -/
theorem publish_failure_logged_and_swallowed (env : CallbackEnv) (c : String)
    (r : Response) (tj uj : List (String × String)) (tok uid : String)
    (hc : c ≠ "")
    (ht : env.token = .success tj) (htk : dictGetS tj "access_token" = some tok)
    (hi : env.identity = .success uj) (hid : dictGetS uj "id" = some uid)
    (hput : env.put = .returns r) (hr : r.ok = false) :
    (linked_roles env (some c)).result = .ok successRedirect ∧
    publishStep env.put uid =
      .ok ["Error updating metadata", "Response Body: " ++ r.text] := by
  constructor
  · have hres := update_metadata_result_of_returns env uid r hput
    simp [linked_roles, hc, ht, htk, hi, hid, hres]
  · rw [hput]
    simp [publishStep, handlePublishError, hr]

/-- Witness for the amended C2 at a concrete environment with a
non-success publish response. -/
theorem publish_failure_logged_and_swallowed_witness :
    (linked_roles envC2 (some "abc")).result = .ok successRedirect ∧
    publishStep envC2.put "42" =
      .ok ["Error updating metadata", "Response Body: " ++ "bad request"] :=
  publish_failure_logged_and_swallowed envC2 "abc" ⟨false, "bad request"⟩
    [("access_token", "tok")] [("id", "42")] "tok" "42"
    (by decide) rfl rfl rfl rfl rfl rfl

/-- C7 counterexample: the code parameter is present and both OAuth steps
succeed, yet the handler does not end in the redirect — the publish PUT
raises and the NameError escapes. -/
theorem success_redirect_cex :
    envC7.token = .success [("access_token", "tok")] ∧
    envC7.identity = .success [("id", "42")] ∧
    (linked_roles envC7 (some "abc")).result ≠ .ok successRedirect ∧
    (linked_roles envC7 (some "abc")).result = .exn "NameError" :=
  ⟨rfl, rfl, by decide, rfl⟩

/-- C7 (amended): when the code parameter is provided (non-falsy), the
token exchange and identity lookup succeed, and the publish PUT returns a
response object, the handler terminates with the 302 redirect to the fixed
direct-messages URL, after the four outbound calls in order. -/
theorem success_path_redirects (env : CallbackEnv) (c : String) (r : Response)
    (tj uj : List (String × String)) (tok uid : String)
    (hc : c ≠ "")
    (ht : env.token = .success tj) (htk : dictGetS tj "access_token" = some tok)
    (hi : env.identity = .success uj) (hid : dictGetS uj "id" = some uid)
    (hput : env.put = .returns r) :
    linked_roles env (some c) =
      ⟨.ok successRedirect,
       [.tokenExchange, .identityLookup, .roleLookup, .publish]⟩ := by
  have hres := update_metadata_result_of_returns env uid r hput
  have hcalls := update_metadata_calls env uid
  simp [linked_roles, hc, ht, htk, hi, hid, hres, hcalls]

/-- Witness for the amended C7 at an environment where every outbound call
succeeds. -/
theorem success_path_redirects_witness :
    linked_roles envC7ok (some "abc") =
      ⟨.ok successRedirect,
       [.tokenExchange, .identityLookup, .roleLookup, .publish]⟩ :=
  success_path_redirects envC7ok "abc" ⟨true, "ok"⟩
    [("access_token", "tok")] [("id", "42")] "tok" "42"
    (by decide) rfl rfl rfl rfl rfl

/-- C10: a success-status token-exchange response whose JSON lacks the
access_token key, or a success-status identity response whose JSON lacks
the id key, makes the handler raise an uncaught KeyError (not caught by
the RequestException handlers), so the request does not take the
logged-500 path. -/
theorem missing_json_key_uncaught_keyerror (env : CallbackEnv) (c : String)
    (hc : c ≠ "")
    (h : (∃ tj, env.token = .success tj ∧ dictGetS tj "access_token" = none) ∨
         (∃ tj tok uj, env.token = .success tj ∧
            dictGetS tj "access_token" = some tok ∧
            env.identity = .success uj ∧ dictGetS uj "id" = none)) :
    (linked_roles env (some c)).result = .exn "KeyError" := by
  rcases h with ⟨tj, ht, hk⟩ | ⟨tj, tok, uj, ht, htk, hi, hik⟩
  · simp [linked_roles, hc, ht, hk]
  · simp [linked_roles, hc, ht, htk, hi, hik]

/-- Witness for C10 at an environment whose token response lacks the
access_token key. -/
theorem missing_json_key_uncaught_keyerror_witness :
    (linked_roles envC10 (some "abc")).result = .exn "KeyError" :=
  missing_json_key_uncaught_keyerror envC10 "abc" (by decide)
    (Or.inl ⟨[("token_type", "Bearer")], rfl, rfl⟩)

end LinkedRoles
